import Mathlib

/-!
Shallow embedding of the music-theory engine of `main.py`
(scale_and_chord_generator): the note-name table, the scale, chord and
progression definition tables, and the functions `is_consonant_chord`,
`generate_scale`, `generate_chord`, `generate_all_chords_for_scale` and
`generate_progression`.  Python dictionaries are modelled as ordered
association lists (Python 3 dicts preserve insertion order), Python's
`list.index` and `dict[key]` failures become `Except` errors, and
Python's `%` on integers is `Int.emod` (both give a result in `[0, m)`
for a positive modulus `m`).
-/

namespace ScaleGen

/-- The 12 canonical note names, `notes` in main.py line 11 (one flat
literal list in the source, written here as a concatenation of the two
half-octaves). -/
def notes : List String :=
  ["C", "C#", "D", "D#", "E", "F"] ++ ["F#", "G", "G#", "A", "A#", "B"]

/-- `note_to_midi = {note: i for i, note in enumerate(notes)}`, main.py line 12. -/
def note_to_midi : List (String × Nat) :=
  notes.enum.map (fun p => (p.2, p.1))

/-- The scale interval table, main.py lines 15-25 (insertion order kept). -/
def scales : List (String × List Nat) :=
  [("major", [2, 2, 1, 2, 2, 2, 1]),
   ("natural_minor", [2, 1, 2, 2, 1, 2, 2]),
   ("harmonic_minor", [2, 1, 2, 2, 1, 3, 1]),
   ("melodic_minor", [2, 1, 2, 2, 2, 2, 1]),
   ("dorian", [2, 1, 2, 2, 2, 1, 2]),
   ("phrygian", [1, 2, 2, 2, 1, 2, 2]),
   ("lydian", [2, 2, 2, 1, 2, 2, 1]),
   ("mixolydian", [2, 2, 1, 2, 2, 1, 2]),
   ("locrian", [1, 2, 2, 1, 2, 2, 2])]

/-- The chord formula table, main.py lines 27-66 (insertion order kept). -/
def chord_formulas : List (String × List Nat) :=
  [("major", [0, 4, 7]),
   ("major6", [0, 4, 7, 9]),
   ("major7", [0, 4, 7, 11]),
   ("major9", [0, 4, 7, 11, 14]),
   ("major11", [0, 4, 7, 11, 14, 17]),
   ("major13", [0, 4, 7, 11, 14, 17, 21]),
   ("minor", [0, 3, 7]),
   ("minor6", [0, 3, 7, 9]),
   ("minor7", [0, 3, 7, 10]),
   ("minor9", [0, 3, 7, 10, 14]),
   ("minor11", [0, 3, 7, 10, 14, 17]),
   ("minor13", [0, 3, 7, 10, 14, 17, 21]),
   ("dominant7", [0, 4, 7, 10]),
   ("dominant9", [0, 4, 7, 10, 14]),
   ("dominant11", [0, 4, 7, 10, 14, 17]),
   ("dominant13", [0, 4, 7, 10, 14, 17, 21]),
   ("augmented", [0, 4, 8]),
   ("augmented7", [0, 4, 8, 10]),
   ("augmented9", [0, 4, 8, 10, 14]),
   ("diminished", [0, 3, 6]),
   ("diminished7", [0, 3, 6, 9]),
   ("sus2", [0, 2, 7]),
   ("sus4", [0, 5, 7]),
   ("7#5", [0, 4, 8, 10]),
   ("7b5", [0, 4, 6, 10]),
   ("7#9", [0, 4, 7, 10, 15]),
   ("7b9", [0, 4, 7, 10, 13]),
   ("add9", [0, 4, 7, 14]),
   ("major7#11", [0, 4, 7, 11, 18]),
   ("minor_major7", [0, 3, 7, 11])]

/-- The progression pattern table, main.py lines 68-93 (insertion order kept). -/
def progressions : List (String × List Int) :=
  [("I-V-ii-IV", [0, 4, 1, 3]),
   ("12-bar-blues", [0, 0, 0, 0, 3, 3, 0, 0, 4, 3, 0, 0]),
   ("I-IV-I-V-IV-I", [0, 3, 0, 4, 3, 0]),
   ("iii-vi-ii-V", [2, 5, 1, 4]),
   ("I-vi-ii-V", [0, 5, 1, 4]),
   ("I-vi-ii-V-I", [0, 5, 1, 4, 0]),
   ("I-V-vi-iii-IV-I-IV-V", [0, 4, 5, 2, 3, 0, 3, 4]),
   ("I-IV-V", [0, 3, 4]),
   ("I-bVII-IV", [0, 10, 3]),
   ("I-V-vi-iii-IV-I-ii-V", [0, 4, 5, 2, 3, 0, 1, 4]),
   ("ii-V-I", [1, 4, 0]),
   ("I-ii-IV-V", [0, 1, 3, 4]),
   ("ii-V-I-vi", [1, 4, 0, 5]),
   ("i-bVI-bVII", [0, 8, 10]),
   ("i-bVII-bVI-VII", [0, 10, 8, 11]),
   ("i-iv-v", [0, 3, 7]),
   ("I-IV-vi-V", [0, 3, 5, 4]),
   ("I-V-IV-I", [0, 4, 3, 0]),
   ("vi-IV-I-V", [5, 3, 0, 4]),
   ("I-IV-I-V", [0, 3, 0, 4]),
   ("I-V-IV", [0, 4, 3]),
   ("I-IV-V-IV", [0, 3, 4, 3]),
   ("I-IV-V-I", [0, 3, 4, 0]),
   ("I-vi-IV-V", [0, 5, 3, 4])]

/-- Errors of the engine: Python's `KeyError` on `scales[scale_type]`
and `ValueError` on `notes.index(root)`. -/
inductive GenError
  | unknownScaleType
  | unknownNoteName
  deriving DecidableEq

/-- Error of `generate_progression`: Python's `IndexError` on `chords[i]`. -/
inductive ProgressionError
  | indexOutOfRange
  deriving DecidableEq

/-- Lookup in an ordered association list, modelling `dict[key]`
(`none` models `KeyError`). -/
def dictGet? {α : Type} (d : List (String × α)) (k : String) : Option α :=
  (d.find? (fun p => p.1 == k)).map (fun p => p.2)

/-- Python's `list.index(x)`: index of the first occurrence, `none`
models `ValueError`. -/
def list_index (l : List String) (x : String) : Option Nat :=
  match l with
  | [] => none
  | y :: ys => if y == x then some 0 else (list_index ys x).map (fun i => i + 1)

/-- Python's `lst[i]` on a list, with negative indices counting from the
end; `none` models `IndexError`. -/
def listGetPy {α : Type} (l : List α) (i : Int) : Option α :=
  if 0 ≤ i then l.get? i.toNat
  else if 0 ≤ i + l.length then l.get? (i + l.length).toNat
  else none

/-- `consonant_intervals = [0, 3, 4, 7, 8, 9, 12]`, main.py line 98. -/
def consonant_intervals : List Int := [0, 3, 4, 7, 8, 9, 12]

/-- `is_consonant_chord`, main.py lines 97-104: for every pair of
positions `i < j`, `(chord[j] - chord[i]) % 12` must be in
`consonant_intervals`.  The nested `for` loops over index pairs are
rendered as structural recursion: the head element paired with each
later element, then the tail pairs. -/
def is_consonant_chord : List Int → Bool
  | [] => true
  | x :: xs =>
      (xs.all (fun y => decide ((y - x) % 12 ∈ consonant_intervals))) &&
        is_consonant_chord xs

/-- The cursor trace of the loop in `generate_scale`, main.py lines
112-114: starting from `current_note`, each interval advances the
cursor to `(current_note + interval) % 12`; the list of successive
cursor values is returned. -/
def scale_walk (current_note : Nat) : List Nat → List Nat
  | [] => []
  | interval :: rest =>
      ((current_note + interval) % 12) ::
        scale_walk ((current_note + interval) % 12) rest

/-- `generate_scale`, main.py lines 108-115.  `scales[scale_type]` is
looked up first (line 109, `KeyError`), then `notes.index(root)`
(line 111, `ValueError`); the scale is the root followed by the note
name of each successive cursor value. -/
def generate_scale (root : String) (scale_type : String) :
    Except GenError (List String) :=
  match dictGet? scales scale_type with
  | none => Except.error GenError.unknownScaleType
  | some scale_intervals =>
      match list_index notes root with
      | none => Except.error GenError.unknownNoteName
      | some current_note =>
          Except.ok (root ::
            (scale_walk current_note scale_intervals).map
              (fun c => notes.getD c ""))

/-- `generate_chord`, main.py lines 119-122:
`[(root_index + interval) % 12 for interval in formula]`. -/
def generate_chord (root : String) (formula : List Nat) :
    Except GenError (List Nat) :=
  match list_index notes root with
  | none => Except.error GenError.unknownNoteName
  | some root_index =>
      Except.ok (formula.map (fun interval => (root_index + interval) % 12))

/-- `generate_all_chords_for_scale`, main.py lines 126-132: for each
root in the scale (outer loop), for each chord formula in table order
(inner loop), append `(root, chord_name, generate_chord root formula)`. -/
def generate_all_chords_for_scale (scale : List String) :
    Except GenError (List (String × String × List Nat)) :=
  (scale.mapM (fun root =>
      chord_formulas.mapM (fun p =>
        (generate_chord root p.2).map (fun chord => (root, p.1, chord))))).map
    List.flatten

/-- `generate_progression`, main.py lines 136-138:
`[chords[i] for i in progression_pattern]`, evaluated left to right,
aborting at the first out-of-range index. -/
def generate_progression {α : Type} (chords : List α) :
    List Int → Except ProgressionError (List α)
  | [] => Except.ok []
  | i :: rest =>
      match listGetPy chords i with
      | none => Except.error ProgressionError.indexOutOfRange
      | some c =>
          match generate_progression chords rest with
          | Except.error e => Except.error e
          | Except.ok tail => Except.ok (c :: tail)

/-- The scale returned by `generate_scale` on valid input (`[]` on error). -/
def scaleOf (root : String) (scale_type : String) : List String :=
  (generate_scale root scale_type).toOption.getD []

/-- The chord returned by `generate_chord` on valid input (`[]` on error). -/
def chordOf (root : String) (formula : List Nat) : List Nat :=
  (generate_chord root formula).toOption.getD []

/-- The pitch class of a canonical note name (`0` on error). -/
def rootIndexOf (root : String) : Nat :=
  (list_index notes root).getD 0

/-- The C major scale as the program computes it. -/
def c_major_scale : List String := scaleOf "C" "major"

/-- The chord list the batch driver builds for the C major scale
(main.py line 187). -/
def all_chords_C_major : List (String × String × List Nat) :=
  (generate_all_chords_for_scale c_major_scale).toOption.getD []

/-- The 7-chord slate `all_chords[:7]` the batch driver feeds to
`generate_progression` (main.py line 209), for the C major scale. -/
def first7chords_C_major : List (List Nat) :=
  (all_chords_C_major.take 7).map (fun t => t.2.2)

end ScaleGen

deriving instance DecidableEq for Except

namespace ScaleGen

/-- Claim C1: for every root note among the 12 canonical note names and
every registered scale type, `generate_scale` succeeds with exactly 8
entries, entry 0 equals the root, entry 7's note name equals the root's
note name (octave closure), and each successive entry is the note name
of the pitch-class cursor advanced by the scale's step size modulo 12. -/
theorem generate_scale_octave_closure :
    ∀ r ∈ notes, ∀ p ∈ scales,
      generate_scale r p.1 = Except.ok (scaleOf r p.1) ∧
      (scaleOf r p.1).length = 8 ∧
      (scaleOf r p.1).getD 0 "" = r ∧
      (scaleOf r p.1).getD 7 "" = r ∧
      ∀ k < 7, list_index notes ((scaleOf r p.1).getD (k + 1) "") =
        some ((rootIndexOf ((scaleOf r p.1).getD k "") + p.2.getD k 0) % 12) := by
  decide

/-- Witness for C1 at root `"C"` and scale `"major"`, with the step
property instantiated at degree 0. -/
theorem generate_scale_octave_closure_witness :
    generate_scale "C" "major" = Except.ok (scaleOf "C" "major") ∧
    (scaleOf "C" "major").length = 8 ∧
    (scaleOf "C" "major").getD 7 "" = "C" ∧
    list_index notes ((scaleOf "C" "major").getD 1 "") =
      some ((rootIndexOf ((scaleOf "C" "major").getD 0 "") + 2) % 12) := by
  have h := generate_scale_octave_closure "C" (by decide)
    ("major", [2, 2, 1, 2, 2, 2, 1]) (by decide)
  exact ⟨h.1, h.2.1, h.2.2.2.1, h.2.2.2.2 0 (by decide)⟩

/-- Claim C3: for every canonical root note name and every registered
chord formula, `generate_chord` succeeds with a chord of the formula's
length, every element below 12, and each position equal to
`(root pitch class + formula offset) % 12` in formula order (so
post-modulo duplicates are preserved positionally). -/
theorem generate_chord_spec :
    ∀ r ∈ notes, ∀ f ∈ chord_formulas,
      generate_chord r f.2 = Except.ok (chordOf r f.2) ∧
      (chordOf r f.2).length = f.2.length ∧
      (∀ x ∈ chordOf r f.2, x < 12) ∧
      ∀ k < f.2.length,
        (chordOf r f.2).getD k 0 = (rootIndexOf r + f.2.getD k 0) % 12 := by
  decide

/-- Witness for C3 at root `"C"` and the `"major"` formula `[0, 4, 7]`,
with the elementwise bound at element 0 and the positional property at
position 1. -/
theorem generate_chord_spec_witness :
    generate_chord "C" [0, 4, 7] = Except.ok (chordOf "C" [0, 4, 7]) ∧
    (chordOf "C" [0, 4, 7]).length = 3 ∧
    0 < 12 ∧
    (chordOf "C" [0, 4, 7]).getD 1 0 = (rootIndexOf "C" + 4) % 12 := by
  have h := generate_chord_spec "C" (by decide) ("major", [0, 4, 7]) (by decide)
  exact ⟨h.1, h.2.1, h.2.2.1 0 (by decide), h.2.2.2 1 (by decide)⟩

/-- Claim C9: converting each of the 12 canonical note names to its
pitch class via `note_to_midi` and back via the `notes` table is the
identity, and converting each pitch class in `[0, 12)` to a note name
and back is the identity: the fixed table is a bijection. -/
theorem note_pitchclass_roundtrip :
    (∀ r ∈ notes,
      (dictGet? note_to_midi r).bind (fun i => notes.get? i) = some r) ∧
    (∀ pc < 12,
      (notes.get? pc).bind (fun n => dictGet? note_to_midi n) = some pc) := by
  decide

/-- Witness for C9 at note name `"C#"` and pitch class 11. -/
theorem note_pitchclass_roundtrip_witness :
    (dictGet? note_to_midi "C#").bind (fun i => notes.get? i) = some "C#" ∧
    (notes.get? 11).bind (fun n => dictGet? note_to_midi n) = some 11 := by
  exact ⟨note_pitchclass_roundtrip.1 "C#" (by decide),
         note_pitchclass_roundtrip.2 11 (by decide)⟩

/-- Claim C7 (code evidence): on the C major scale
`["C", "D", "E", "F", "G", "A", "B", "C"]`, the first 7 entries of
`generate_all_chords_for_scale` are NOT one chord per scale degree:
they are all rooted at `"C"` (the first scale entry) and carry the
first seven chord formulas of the table, because the formula loop is
the inner loop. -/
theorem first7_slate_single_root :
    c_major_scale = ["C", "D", "E", "F", "G", "A", "B", "C"] ∧
    (all_chords_C_major.take 7).map (fun t => t.1) =
      ["C", "C", "C", "C", "C", "C", "C"] ∧
    (all_chords_C_major.take 7).map (fun t => t.2.1) =
      ["major", "major6", "major7", "major9", "major11", "major13", "minor"] := by
  decide

/-- Claim C8 (code evidence): the registered progression `"I-bVII-IV"`
has pattern `[0, 10, 3]`, whose index 10 is outside the 7-chord slate
the batch driver builds, so `generate_progression` hits the
index-out-of-range branch; exactly four registered patterns contain an
index outside `[0, 7)`. -/
theorem registered_progression_index_out_of_range :
    dictGet? progressions "I-bVII-IV" = some [0, 10, 3] ∧
    first7chords_C_major.length = 7 ∧
    generate_progression first7chords_C_major [0, 10, 3] =
      Except.error ProgressionError.indexOutOfRange ∧
    (progressions.filter
        (fun p => p.2.any (fun i => decide (i < 0) || decide (7 ≤ i)))).map
      (fun p => p.1) =
      ["I-bVII-IV", "i-bVI-bVII", "i-bVII-bVI-VII", "i-iv-v"] := by
  decide

/-- Counterexample to claim C5 as stated: the pattern index `-1` is
outside `[0, 7)`, yet `generate_progression` on a 7-element chord list
succeeds (Python's negative indexing selects the last element). -/
theorem generate_progression_negative_index_ok :
    generate_progression ([10, 11, 12, 13, 14, 15, 16] : List Int) [-1] =
      Except.ok [16] ∧ (-1 : Int) < 0 := by
  decide

end ScaleGen

namespace ScaleGen

/-- `is_consonant_chord` as a `Pairwise` predicate: the nested index
loops check exactly the ordered pairs in list order. -/
theorem is_consonant_chord_iff_pairwise (l : List Int) :
    is_consonant_chord l = true ↔
      l.Pairwise (fun a b => (b - a) % 12 ∈ consonant_intervals) := by
  induction l with
  | nil => simp [is_consonant_chord]
  | cons x xs ih => simp [is_consonant_chord, List.pairwise_cons, ih]

/-- Membership in the literal interval list `[0, 3, 4, 7, 8, 9, 12]`
agrees with membership in the reduced set `{0, 3, 4, 7, 8, 9}`,
because `% 12` lands in `[0, 12)` and the literal `12` is unreachable. -/
theorem mem_consonant_intervals_iff (a b : Int) :
    (b - a) % 12 ∈ consonant_intervals ↔
      (b - a) % 12 ∈ ([0, 3, 4, 7, 8, 9] : List Int) := by
  have h1 : 0 ≤ (b - a) % 12 := Int.emod_nonneg _ (by norm_num)
  have h2 : (b - a) % 12 < 12 := Int.emod_lt_of_pos _ (by norm_num)
  simp only [consonant_intervals, List.mem_cons, List.not_mem_nil, or_false]
  omega

/-- Claim C2: `is_consonant_chord chord` is true if and only if, for
every pair of positions `i < j`, `(chord[j] - chord[i]) % 12` lies in
the allowed set `{0, 3, 4, 7, 8, 9}` (the literal 12 of the source's
set reduces to 0); in particular it is true on `[0, 4, 7]` and false
on `[0, 4, 7, 10, 15]`. -/
theorem is_consonant_chord_pairwise_spec :
    (∀ chord : List Int,
      (is_consonant_chord chord = true ↔
        ∀ (i j : Nat) (hij : i < j) (hj : j < chord.length),
          (chord[j] - chord[i]) % 12 ∈ ([0, 3, 4, 7, 8, 9] : List Int))) ∧
    is_consonant_chord [0, 4, 7] = true ∧
    is_consonant_chord [0, 4, 7, 10, 15] = false := by
  refine ⟨?_, by decide, by decide⟩
  intro chord
  rw [is_consonant_chord_iff_pairwise, List.pairwise_iff_getElem]
  constructor
  · intro h i j hij hj
    exact (mem_consonant_intervals_iff _ _).mp (h i j (Nat.lt_trans hij hj) hj hij)
  · intro h i j hi hj hij
    exact (mem_consonant_intervals_iff _ _).mpr (h i j hij hj)

/-- Witness for C2: the pairwise condition instantiated on the C major
triad at positions 0 and 1. -/
theorem is_consonant_chord_pairwise_spec_witness :
    is_consonant_chord [0, 4, 7] = true ∧
    (([0, 4, 7] : List Int)[1] - ([0, 4, 7] : List Int)[0]) % 12 ∈
      ([0, 3, 4, 7, 8, 9] : List Int) :=
  ⟨is_consonant_chord_pairwise_spec.2.1,
   (is_consonant_chord_pairwise_spec.1 [0, 4, 7]).mp
     is_consonant_chord_pairwise_spec.2.1 0 1 (by decide) (by decide)⟩

/-- Python indexing `chords[i]` yields nothing exactly when `i` is
outside `[-len(chords), len(chords))`. -/
theorem listGetPy_eq_none_iff {α : Type} (l : List α) (i : Int) :
    listGetPy l i = none ↔ i < -(l.length : Int) ∨ (l.length : Int) ≤ i := by
  unfold listGetPy
  split_ifs with h0 h1 <;> simp [List.get?_eq_none] <;> omega

/-- Python indexing `chords[i]` with `0 ≤ i < len(chords)` is plain
positional access. -/
theorem listGetPy_nonneg_eq {α : Type} (l : List α) (i : Int) (d : α)
    (h0 : 0 ≤ i) (h1 : i < (l.length : Int)) :
    listGetPy l i = some (l.getD i.toNat d) := by
  have hlt : i.toNat < l.length := by omega
  unfold listGetPy
  rw [if_pos h0, List.get?_eq_getElem?, List.getElem?_eq_getElem hlt,
    List.getD_eq_getElem?_getD, List.getElem?_eq_getElem hlt]
  rfl

/-- Claim C4: when every pattern index is in `[0, len(chords))`,
`generate_progression` succeeds and maps each pattern index to the
chord at that position, preserving pattern order and repetitions; in
particular the 12-bar-blues pattern on a 7-chord slate yields
`chords[0]` eight times, `chords[3]` three times and `chords[4]` once,
in the exact positional pattern. -/
theorem generate_progression_map_spec :
    (∀ {α : Type} [Inhabited α] (chords : List α) (pattern : List Int),
      (∀ i ∈ pattern, 0 ≤ i ∧ i < (chords.length : Int)) →
      generate_progression chords pattern =
        Except.ok (pattern.map (fun i => chords.getD i.toNat default))) ∧
    (∀ {α : Type} (c0 c1 c2 c3 c4 c5 c6 : α),
      generate_progression [c0, c1, c2, c3, c4, c5, c6]
          [0, 0, 0, 0, 3, 3, 0, 0, 4, 3, 0, 0] =
        Except.ok [c0, c0, c0, c0, c3, c3, c0, c0, c4, c3, c0, c0]) := by
  constructor
  · intro α inst chords pattern h
    induction pattern with
    | nil => rfl
    | cons i rest ih =>
        obtain ⟨h0, h1⟩ := h i (List.mem_cons_self i rest)
        have hrec := ih (fun j hj => h j (List.mem_cons_of_mem i hj))
        simp only [generate_progression,
          listGetPy_nonneg_eq chords i default h0 h1, hrec, List.map_cons]
  · intro α c0 c1 c2 c3 c4 c5 c6
    rfl

/-- Witness for C4 at a concrete in-range chord list and pattern. -/
theorem generate_progression_map_spec_witness :
    generate_progression ([5, 6, 7] : List Int) [0, 2] = Except.ok [5, 7] :=
  (generate_progression_map_spec.1 ([5, 6, 7] : List Int) [0, 2]
    (by decide)).trans (by decide)

/-- Claim C5 as amended: `generate_progression` fails with the
index-out-of-range error if and only if some pattern index is outside
`[-len(chords), len(chords))` — indices in `[-len(chords), 0)` wrap
around Python-style instead of failing; in particular pattern index 7
against a 7-element chord list fails. -/
theorem generate_progression_error_iff :
    (∀ {α : Type} (chords : List α) (pattern : List Int),
      (generate_progression chords pattern =
          Except.error ProgressionError.indexOutOfRange ↔
        ∃ i ∈ pattern, i < -(chords.length : Int) ∨ (chords.length : Int) ≤ i)) ∧
    generate_progression ([10, 11, 12, 13, 14, 15, 16] : List Int) [7] =
      Except.error ProgressionError.indexOutOfRange := by
  constructor
  · intro α chords pattern
    induction pattern with
    | nil => simp [generate_progression]
    | cons i rest ih =>
        simp only [generate_progression]
        cases hg : listGetPy chords i with
        | none =>
            have hi := (listGetPy_eq_none_iff chords i).mp hg
            exact iff_of_true rfl ⟨i, List.mem_cons_self i rest, hi⟩
        | some c =>
            have hi : ¬(i < -(chords.length : Int) ∨ (chords.length : Int) ≤ i) := by
              intro hc
              rw [← listGetPy_eq_none_iff chords i] at hc
              simp [hg] at hc
            cases hrec : generate_progression chords rest with
            | error e =>
                cases e
                rw [hrec] at ih
                obtain ⟨j, hj, hcond⟩ := ih.mp rfl
                exact iff_of_true rfl ⟨j, List.mem_cons_of_mem i hj, hcond⟩
            | ok tail =>
                rw [hrec] at ih
                constructor
                · intro hc
                  exact absurd hc (by simp)
                · intro hc
                  obtain ⟨j, hj, hcond⟩ := hc
                  rcases List.mem_cons.mp hj with rfl | hj2
                  · exact absurd hcond hi
                  · exact absurd (ih.mpr ⟨j, hj2, hcond⟩) (by simp)
  · decide

/-- Witness for C5 (amended): index 10 against a 7-element list is out
of range, so the error is reached. -/
theorem generate_progression_error_iff_witness :
    generate_progression ([10, 11, 12, 13, 14, 15, 16] : List Int) [0, 10] =
      Except.error ProgressionError.indexOutOfRange :=
  (generate_progression_error_iff.1 ([10, 11, 12, 13, 14, 15, 16] : List Int)
    [0, 10]).mpr ⟨10, by decide, by decide⟩

/-- Counterexample to claim C6 as stated: `[7, 0]` is a permutation of
`[0, 7]`, yet `is_consonant_chord` accepts `[0, 7]` (interval 7, a
fifth) and rejects `[7, 0]` (interval 5, a fourth): position order does
affect the result. -/
theorem is_consonant_chord_not_perm_invariant :
    ([0, 7] : List Int).Perm [7, 0] ∧
    is_consonant_chord [0, 7] = true ∧
    is_consonant_chord [7, 0] = false := by
  refine ⟨by decide, by decide, by decide⟩

/-- Claim C6 as amended: `is_consonant_chord` returns the same result
on a permuted chord sequence whenever no two elements of the chord
differ by 5 modulo 12 in either direction (the allowed interval set is
closed under negation modulo 12 except for the pair 5 and 7); without
that restriction the result can depend on position order. -/
theorem is_consonant_chord_perm_invariant :
    ∀ (l₁ l₂ : List Int), l₁.Perm l₂ →
      (∀ a ∈ l₁, ∀ b ∈ l₁, (b - a) % 12 ≠ 5) →
      is_consonant_chord l₁ = is_consonant_chord l₂ := by
  intro l₁ l₂ hp hno
  have key : ∀ a ∈ l₁, ∀ b ∈ l₁,
      ((b - a) % 12 ∈ consonant_intervals ↔ (a - b) % 12 ∈ consonant_intervals) := by
    intro a ha b hb
    have h5 := hno a ha b hb
    have h6 := hno b hb a ha
    simp only [consonant_intervals, List.mem_cons, List.not_mem_nil, or_false]
    omega
  have t₁ : l₁.Pairwise (fun a b => (b - a) % 12 ∈ consonant_intervals) ↔
      l₁.Pairwise (fun a b =>
        (b - a) % 12 ∈ consonant_intervals ∧ (a - b) % 12 ∈ consonant_intervals) := by
    constructor
    · intro h
      exact h.imp_of_mem (fun ha hb hr => ⟨hr, (key _ ha _ hb).mp hr⟩)
    · intro h
      exact h.imp (fun h => h.1)
  have t₂ : l₂.Pairwise (fun a b => (b - a) % 12 ∈ consonant_intervals) ↔
      l₂.Pairwise (fun a b =>
        (b - a) % 12 ∈ consonant_intervals ∧ (a - b) % 12 ∈ consonant_intervals) := by
    constructor
    · intro h
      exact h.imp_of_mem (fun ha hb hr =>
        ⟨hr, (key _ (hp.mem_iff.mpr ha) _ (hp.mem_iff.mpr hb)).mp hr⟩)
    · intro h
      exact h.imp (fun h => h.1)
  have t₃ := @List.Perm.pairwise_iff Int
    (fun a b =>
      (b - a) % 12 ∈ consonant_intervals ∧ (a - b) % 12 ∈ consonant_intervals)
    (fun {x y} h => ⟨h.2, h.1⟩) l₁ l₂ hp
  have hiff : is_consonant_chord l₁ = true ↔ is_consonant_chord l₂ = true := by
    rw [is_consonant_chord_iff_pairwise, is_consonant_chord_iff_pairwise, t₁, t₂]
    exact t₃
  cases h₁ : is_consonant_chord l₁ <;> cases h₂ : is_consonant_chord l₂ <;>
    simp_all

/-- Witness for C6 (amended): `[0, 4]` and `[4, 0]` differ by 4 and 8
modulo 12, never 5, so the permuted chord gets the same verdict. -/
theorem is_consonant_chord_perm_invariant_witness :
    is_consonant_chord [0, 4] = is_consonant_chord [4, 0] :=
  is_consonant_chord_perm_invariant [0, 4] [4, 0]
    (List.Perm.swap 4 0 []) (by decide)

/-- `notes.index(root)` signals an error exactly on non-canonical names. -/
theorem list_index_eq_none_of_not_mem (l : List String) (x : String)
    (h : x ∉ l) : list_index l x = none := by
  induction l with
  | nil => rfl
  | cons y ys ih =>
      have hxy : ¬(y == x) = true := by
        simp only [beq_iff_eq]
        intro he
        exact h (he ▸ List.mem_cons_self y ys)
      have hys : list_index ys x = none :=
        ih (fun hm => h (List.mem_cons_of_mem y hm))
      simp [list_index, hxy, hys]

/-- Claim C10: `generate_scale` fails with the unknown-scale-type error
whenever `scale_type` is not a registered key of the scale table, and
with the unknown-note-name error whenever the table lookup succeeds but
`root` is not one of the 12 canonical note names; in both cases the
result is the error itself, not a silently defaulted scale. -/
theorem generate_scale_error_spec :
    ∀ (root scale_type : String),
      (dictGet? scales scale_type = none →
        generate_scale root scale_type = Except.error GenError.unknownScaleType) ∧
      (∀ v, dictGet? scales scale_type = some v → root ∉ notes →
        generate_scale root scale_type = Except.error GenError.unknownNoteName) := by
  intro root scale_type
  constructor
  · intro h
    simp [generate_scale, h]
  · intro v hv hroot
    simp [generate_scale, hv, list_index_eq_none_of_not_mem notes root hroot]

/-- Witness for C10: `"pentatonic"` is not a registered scale type, and
`"H"` is not a canonical note name. -/
theorem generate_scale_error_spec_witness :
    generate_scale "C" "pentatonic" = Except.error GenError.unknownScaleType ∧
    generate_scale "H" "major" = Except.error GenError.unknownNoteName :=
  ⟨(generate_scale_error_spec "C" "pentatonic").1 (by decide),
   (generate_scale_error_spec "H" "major").2 [2, 2, 1, 2, 2, 2, 1]
     (by decide) (by decide)⟩

end ScaleGen
